import Mathlib

/-!
# Verification of the smix provider abstraction layer

Shallow embedding of the core of `github.com/connorhough/smix`:
the error taxonomy (`internal/llm/errors_test.go`), the retry engine
(`internal/llm/retry.go`), the provider factory
(`internal/providers/factory.go`), the Claude and Gemini providers
(`internal/llm/claude/provider.go`, `internal/llm/gemini/provider.go`),
the I/O streams abstraction (`internal/llm/iostreams.go`), the generation
options (`internal/llm/options.go`) and the configuration resolver
(`internal/config`, `ResolveProviderConfig` / `ApplyFlags`).

Go `error` values are modelled by the inductive `GoError`; `nil`-able
errors by `Option GoError`; fallible functions by `Except GoError`.
A Go `context.Context` is modelled by the abstract check-point model
`Ctx`: execution passes numbered suspension points, and the context is
observed cancelled at every point from `cancelAt` onwards (cancellation
is monotone in real time).
-/

namespace Smix

/-- Model of Go `error` values as they occur in this code base.
`errorf` is `fmt.Errorf` without `%w` (an opaque leaf error, also used for
errors produced outside the repository such as `exec.LookPath` failures);
`wrapf` is `fmt.Errorf` with `%w`, which stores the fully rendered message
together with the wrapped error; a `*llm.ProviderError` value (fields
`Provider`, `Msg`, `Err error`) is `providerErr` when its `Err` field is
nil and `providerWrap` when it is non-nil (two constructors instead of a
nested `Option`, to keep equality derivable);
`apiError` is the external `genai.APIError` with its `Status`, `Code`
and `Message` fields; `ctxCanceled` is `context.Canceled`. -/
inductive GoError where
  | errorf (msg : String)
  | wrapf (msg : String) (inner : GoError)
  | providerErr (provider : String) (msg : String)
  | providerWrap (provider : String) (msg : String) (inner : GoError)
  | apiError (status : String) (code : Nat) (message : String)
  | ctxCanceled
deriving DecidableEq, Repr

/-- The rendered message of an error, as `Error()` would produce it.
`ProviderError.Error()` returns `Msg` or `Msg + ": " + Err.Error()`;
a `wrapf` error stores its full rendered message. -/
def GoError.message : GoError → String
  | .errorf m => m
  | .wrapf m _ => m
  | .providerErr _ msg => msg
  | .providerWrap _ msg e => msg ++ ": " ++ e.message
  | .apiError _ _ m => m
  | .ctxCanceled => "context canceled"

/-- `Unwrap()`: `wrapf` unwraps to the wrapped error, `ProviderError.Unwrap`
returns its `Err` field, everything else has no unwrap. -/
def GoError.unwrap : GoError → Option GoError
  | .wrapf _ inner => some inner
  | .providerWrap _ _ inner => some inner
  | _ => none

/-- Go `errors.Is(e, target)` for this error model: walk the unwrap chain
looking for `target` (no `Is` methods are defined in the repository). -/
def errorsIs : GoError → GoError → Bool
  | .errorf m, t => decide (GoError.errorf m = t)
  | .wrapf m inner, t => decide (GoError.wrapf m inner = t) || errorsIs inner t
  | .providerErr p m, t => decide (GoError.providerErr p m = t)
  | .providerWrap p m inner, t =>
    decide (GoError.providerWrap p m inner = t) || errorsIs inner t
  | .apiError s c m, t => decide (GoError.apiError s c m = t)
  | .ctxCanceled, t => decide (GoError.ctxCanceled = t)

/-- Go type assertion `err.(*llm.ProviderError)` on the top value: whether
the error value itself is a `*llm.ProviderError`. -/
def GoError.isProviderError : GoError → Bool
  | .providerErr _ _ => true
  | .providerWrap _ _ _ => true
  | _ => false

/-- `llm.ErrProviderNotAvailable(provider, err)`. -/
def ErrProviderNotAvailable (provider : String) (err : GoError) : GoError :=
  .providerWrap provider ("provider '" ++ provider ++ "' not available") err

/-- `llm.ErrAuthenticationFailed(provider, err)`. -/
def ErrAuthenticationFailed (provider : String) (err : GoError) : GoError :=
  .providerWrap provider ("authentication failed for provider '" ++ provider ++ "'") err

/-- `llm.ErrRateLimitExceeded(provider, err)` (signature as used by the
call sites in `gemini/provider.go` and `errors_test.go`; a nil `err` is
`none`). -/
def ErrRateLimitExceeded (provider : String) (err : Option GoError) : GoError :=
  match err with
  | none => .providerErr provider ("rate limit exceeded for provider '" ++ provider ++ "'")
  | some e => .providerWrap provider ("rate limit exceeded for provider '" ++ provider ++ "'") e

/-- `llm.ErrModelNotFound(model, provider, err)` (signature as used by the
call sites in `gemini/provider.go` and `errors_test.go`; a nil `err` is
`none`). -/
def ErrModelNotFound (model : String) (provider : String) (err : Option GoError) : GoError :=
  match err with
  | none =>
    .providerErr provider
      ("model '" ++ model ++ "' not found for provider '" ++ provider ++ "'")
  | some e =>
    .providerWrap provider
      ("model '" ++ model ++ "' not found for provider '" ++ provider ++ "'") e

/-! ## Context model

A `context.Context` observed at discrete suspension points. The points an
execution passes are numbered `0, 1, 2, …` in order; `cancelAt = some c`
means the context's `Done` channel is closed (and `Err()` is non-nil)
at every point from `c` on, `cancelAt = none` means the context is never
cancelled. `errValue` is the value `ctx.Err()` returns once cancelled
(`context.Canceled` or `context.DeadlineExceeded`). -/

/-- Abstract model of a Go `context.Context` as observed at numbered
suspension points. -/
structure Ctx where
  cancelAt : Option Nat
  errValue : GoError
deriving Repr

/-- Whether `ctx.Err()` is non-nil when observed at suspension point `t`. -/
def Ctx.errAt (ctx : Ctx) (t : Nat) : Bool :=
  match ctx.cancelAt with
  | none => false
  | some c => decide (c ≤ t)

/-- A context that is never cancelled (`context.Background()`). -/
def backgroundCtx : Ctx := { cancelAt := none, errValue := .ctxCanceled }

/-! ## Retry engine (`internal/llm/retry.go`) -/

/-- `maxRetries = 3`. -/
def maxRetries : Nat := 3

/-- `initialDelay = 1 * time.Second`, in nanoseconds. -/
def initialDelay : Nat := 1000000000

/-- `maxDelay = 30 * time.Second`, in nanoseconds. -/
def maxDelay : Nat := 30000000000

/-- Observable outcome of a `RetryWithBackoff` run: the returned
`(string, error)` pair, the number of invocations of `fn`, and the list of
delays that were waited out in full (in order). -/
structure RetryTrace where
  result : Except GoError String
  calls : Nat
  slept : List Nat
deriving Repr

/-- The error built after the loop exhausts all attempts:
`fmt.Errorf("failed after %d retries: %w", maxRetries, lastErr)`.
The `none` branch is unreachable (the loop body always records an error
before falling through); Go's `fmt` would render `%w` of a nil error
without wrapping, which the `errorf` branch mirrors. -/
def retryExhaustedError (lastErr : Option GoError) : GoError :=
  match lastErr with
  | some e => .wrapf ("failed after " ++ toString maxRetries ++ " retries: " ++ e.message) e
  | none => .errorf ("failed after " ++ toString maxRetries ++ " retries: %!w(<nil>)")

/-- The `for attempt := 0; attempt < maxRetries; attempt++` loop of
`RetryWithBackoff`, with `remaining = maxRetries - attempt` as the
structural fuel. `t` is the index of the next suspension point
(the pre-attempt `ctx.Err()` check and the `select` on
`time.After(delay)` / `ctx.Done()` are the two suspension points of each
iteration); `delay` is the current backoff delay in nanoseconds; `lastErr`
is the recorded last failure. The successor of `delay` mirrors
`time.Duration(float64(delay) * 2.0)` capped at `maxDelay` — exact here
because every delay reached is far below `2^53`, so the `float64`
arithmetic is exact. `fn` is modelled as a function of the attempt
index. -/
def retryLoop (ctx : Ctx) (fn : Nat → Except GoError String) :
    Nat → Nat → Nat → Nat → Option GoError → RetryTrace
  | 0, _, _, _, lastErr =>
    { result := .error (retryExhaustedError lastErr), calls := 0, slept := [] }
  | remaining + 1, attempt, t, delay, _ =>
    if ctx.errAt t then
      { result := .error ctx.errValue, calls := 0, slept := [] }
    else
      match fn attempt with
      | .ok s => { result := .ok s, calls := 1, slept := [] }
      | .error e =>
        if attempt < maxRetries - 1 then
          if ctx.errAt (t + 1) then
            { result := .error ctx.errValue, calls := 1, slept := [] }
          else
            let nextDelay := if delay * 2 > maxDelay then maxDelay else delay * 2
            let rest := retryLoop ctx fn remaining (attempt + 1) (t + 2) nextDelay (some e)
            { result := rest.result, calls := 1 + rest.calls, slept := delay :: rest.slept }
        else
          let rest := retryLoop ctx fn remaining (attempt + 1) (t + 1) delay (some e)
          { result := rest.result, calls := 1 + rest.calls, slept := rest.slept }

/-- `llm.RetryWithBackoff(ctx, fn)`. -/
def RetryWithBackoff (ctx : Ctx) (fn : Nat → Except GoError String) : RetryTrace :=
  retryLoop ctx fn maxRetries 0 0 initialDelay none

/-! ## Generation options (`internal/llm/options.go`) -/

/-- `llm.GenerateOptions`. -/
structure GenerateOptions where
  Model : String
deriving DecidableEq, Repr

/-- `llm.Option`, a mutator closure over `GenerateOptions`. -/
def LLMOption := GenerateOptions → GenerateOptions

/-- `llm.WithModel(model)`. -/
def WithModel (model : String) : LLMOption :=
  fun opts => { opts with Model := model }

/-- `llm.BuildOptions(opts)`: apply each option in order to the zero
value. -/
def BuildOptions (opts : List LLMOption) : GenerateOptions :=
  opts.foldl (fun acc opt => opt acc) { Model := "" }

/-! ## I/O streams (`internal/llm/iostreams.go`)

Only the fields `IsInteractive` reads are modelled; the `In`, `Out` and
`ErrOut` stream handles are opaque to every property in this file. The
injected TTY check is `isTerminalFunc` (`nil` modelled as `none`) and the
recorded descriptor is `stdinFd`. -/

/-- `llm.IOStreams`, restricted to the TTY-detection state. -/
structure IOStreams where
  isTerminalFunc : Option (Int → Bool)
  stdinFd : Int

/-- `IOStreams.IsInteractive()`: `nil` check function reports false,
otherwise delegate to the injected function on the recorded
descriptor. -/
def IOStreams.IsInteractive (s : IOStreams) : Bool :=
  match s.isTerminalFunc with
  | none => false
  | some f => f s.stdinFd

/-- `llm.TestIOStreams()`: buffers plus a check function hard-coded to
true (fd recorded as 0). -/
def TestIOStreams : IOStreams :=
  { isTerminalFunc := some (fun _ => true), stdinFd := 0 }

/-- `llm.TestIOStreamsNonInteractive()`: buffers plus a check function
hard-coded to false. -/
def TestIOStreamsNonInteractive : IOStreams :=
  { isTerminalFunc := some (fun _ => false), stdinFd := 0 }

/-! ## Claude provider (`internal/llm/claude`) -/

/-- Outcome of a provider `Generate` call together with the number of
backend invocations (subprocess runs or API calls) it performed. -/
structure GenTrace where
  result : Except GoError String
  backendCalls : Nat
deriving Repr

namespace Claude

/-- `claude.ProviderClaude`. -/
def ProviderClaude : String := "claude"

/-- `claude.ModelHaiku`. -/
def ModelHaiku : String := "haiku"

/-- `claude.DefaultModel()`. -/
def DefaultModel : String := ModelHaiku

/-- `claude.Provider`. -/
structure Provider where
  cliPath : String
deriving DecidableEq, Repr

/-- `claude.NewProvider()`. The result of `exec.LookPath("claude")` is an
environment input: `.ok path` when the executable is found, `.error e`
otherwise. -/
def NewProvider (lookPath : Except GoError String) : Except GoError Provider :=
  match lookPath with
  | .error err => .error (ErrProviderNotAvailable ProviderClaude err)
  | .ok cliPath => .ok { cliPath := cliPath }

/-- `claude.Provider.Generate(ctx, prompt, opts...)`. The subprocess run
`exec.CommandContext(ctx, p.cliPath, "--model", model, "-p", prompt)
.CombinedOutput()` is an environment input, modelled as a function from
the model argument to the pair (combined output, error). Lean's
`String.trim` stands in for `strings.TrimSpace` (identical on ASCII
whitespace). -/
def Provider.Generate (_p : Provider) (opts : List LLMOption)
    (combinedOutput : String → String × Option GoError) : GenTrace :=
  let options := BuildOptions opts
  let model := if options.Model = "" then DefaultModel else options.Model
  match combinedOutput model with
  | (output, some err) =>
    { result := .error
        (.wrapf ("claude CLI failed: " ++ err.message ++ " (output: " ++ output ++ ")") err),
      backendCalls := 1 }
  | (output, none) =>
    let result := output.trim
    if result = "" then
      { result := .error (.errorf "claude CLI returned empty response"), backendCalls := 1 }
    else
      { result := .ok result, backendCalls := 1 }

end Claude

/-! ## Gemini provider (`internal/llm/gemini`) -/

/-- `strings.Contains(s, sub)`. -/
def stringContains (s sub : String) : Bool :=
  (List.range (s.length + 1)).any (fun i => sub.isPrefixOf (s.drop i))

namespace Gemini

/-- `gemini.ProviderGemini`. -/
def ProviderGemini : String := "gemini"

/-- `gemini.APIKeyEnvVar`. -/
def APIKeyEnvVar : String := "SMIX_GEMINI_API_KEY"

/-- `gemini.ModelFlash`. -/
def ModelFlash : String := "gemini-3-flash-preview"

/-- `gemini.DefaultModel()`. -/
def DefaultModel : String := ModelFlash

/-- `gemini.Provider`: `hasClient` models `client != nil`. -/
structure Provider where
  hasClient : Bool
  apiKey : String
  cliPath : String
deriving DecidableEq, Repr

/-- `gemini.NewProvider(ctx, apiKey)`. Environment inputs: `cliLookPath`
is the result of `exec.LookPath("gemini")` (`none` when not found — the
error is discarded and `cliPath` stays empty), and `clientInit` is the
error of `genai.NewClient` if it is invoked (`none` = success). -/
def NewProvider (apiKey : String) (cliLookPath : Option String)
    (clientInit : Option GoError) : Except GoError Provider :=
  let cliPath := cliLookPath.getD ""
  if apiKey = "" && cliPath = "" then
    .error (ErrAuthenticationFailed ProviderGemini
      (.errorf ("API key is required (set " ++ APIKeyEnvVar ++
        " environment variable) or Gemini CLI must be installed")))
  else if apiKey ≠ "" then
    match clientInit with
    | some err => .error (ErrProviderNotAvailable ProviderGemini err)
    | none => .ok { hasClient := true, apiKey := apiKey, cliPath := cliPath }
  else
    .ok { hasClient := false, apiKey := apiKey, cliPath := cliPath }

/-- A part of a `genai` response candidate (field `Text`). -/
structure APIPart where
  Text : String
deriving Repr

/-- A `genai` candidate content (field `Parts`). -/
structure APIContent where
  Parts : List APIPart
deriving Repr

/-- A `genai` candidate (field `Content`, nil-able). -/
structure APICandidate where
  Content : Option APIContent
deriving Repr

/-- A `genai.GenerateContentResponse` (field `Candidates`). -/
structure APIResponse where
  Candidates : List APICandidate
deriving Repr

/-- `errors.As(err, &apiErr)` for `genai.APIError`: find the first
`apiError` value in the unwrap chain, returning its
(Status, Code, Message). -/
def errorsAsAPIError : GoError → Option (String × Nat × String)
  | .apiError s c m => some (s, c, m)
  | .wrapf _ inner => errorsAsAPIError inner
  | .providerWrap _ _ inner => errorsAsAPIError inner
  | _ => none

/-- `gemini.Provider.wrapError(err, modelName)`. -/
def wrapError (err : GoError) (modelName : String) : GoError :=
  match errorsAsAPIError err with
  | some (status, code, msg) =>
    if status = "INVALID_ARGUMENT" && stringContains msg "API key" then
      ErrAuthenticationFailed ProviderGemini err
    else if status = "RESOURCE_EXHAUSTED" then
      ErrRateLimitExceeded ProviderGemini (some err)
    else if status = "NOT_FOUND" && stringContains msg "model" then
      ErrModelNotFound modelName ProviderGemini (some err)
    else
      .wrapf ("gemini API error: status " ++ status ++ ", code " ++ toString code ++
        ", " ++ err.message) err
  | none => .wrapf ("gemini API error: " ++ err.message) err

/-- The response-processing tail of the retry closure in
`gemini.Provider.Generate`: candidate checks, part concatenation,
whitespace trim, empty check. -/
def extractText (resp : APIResponse) : Except GoError String :=
  match resp.Candidates with
  | [] => .error (.errorf "gemini API returned no candidates")
  | c :: _ =>
    match c.Content with
    | none => .error (.errorf "gemini API returned nil content")
    | some content =>
      let result := content.Parts.foldl
        (fun acc part => if part.Text ≠ "" then acc ++ part.Text else acc) ""
      let output := result.trim
      if output = "" then .error (.errorf "gemini API returned empty response")
      else .ok output

/-- The closure passed to `llm.RetryWithBackoff` on the API path of
`gemini.Provider.Generate`. The SDK call
`p.client.Models.GenerateContent(ctx, modelName, genai.Text(prompt), nil)`
is an environment input, modelled as a function of the attempt index. -/
def apiAttempt (api : Nat → Except GoError APIResponse) (modelName : String)
    (n : Nat) : Except GoError String :=
  match api n with
  | .error err => .error (wrapError err modelName)
  | .ok resp => extractText resp

/-- Outcome of one `gemini` CLI run via `cmd.Output()`: success with
stdout, an `*exec.ExitError` carrying captured stderr, or any other
error. -/
inductive CLIOutcome where
  | ok (stdout : String)
  | exitErr (stderr : String)
  | otherErr (e : GoError)
deriving Repr

/-- `gemini.Provider.generateViaCLI(ctx, modelName, prompt)`. The
subprocess run is an environment input `cli`. -/
def generateViaCLI (p : Provider) (cli : CLIOutcome) : GenTrace :=
  if p.cliPath = "" then
    { result := .error (.errorf "gemini CLI not available"), backendCalls := 0 }
  else
    match cli with
    | .exitErr stderr =>
      { result := .error (.errorf ("gemini CLI failed: " ++ stderr)), backendCalls := 1 }
    | .otherErr e =>
      { result := .error (.wrapf ("gemini CLI failed: " ++ e.message) e), backendCalls := 1 }
    | .ok out =>
      let result := out.trim
      if result = "" then
        { result := .error (.errorf "gemini CLI returned empty response"), backendCalls := 1 }
      else
        { result := .ok result, backendCalls := 1 }

/-- `gemini.Provider.Generate(ctx, prompt, opts...)`: when no API client
is available, fall back to one CLI run; otherwise execute the API closure
under `llm.RetryWithBackoff`. -/
def Provider.Generate (p : Provider) (ctx : Ctx) (opts : List LLMOption)
    (api : Nat → Except GoError APIResponse) (cli : CLIOutcome) : GenTrace :=
  let options := BuildOptions opts
  let modelName := if options.Model = "" then DefaultModel else options.Model
  if p.hasClient = false then
    generateViaCLI p cli
  else
    let tr := RetryWithBackoff ctx (apiAttempt api modelName)
    { result := tr.result, backendCalls := tr.calls }

end Gemini

/-! ## Provider factory (`internal/providers/factory.go`)

The `sync.RWMutex` serializes the cache lookup / construct / insert
critical sections, and the double-checked second lookup under the write
lock makes every `GetProvider` execution equivalent to one atomic run of
the sequential function below. Provider instances are identified by the
`Nat` tag assigned at construction (`nextId`), standing in for pointer
identity; `ctorCalls` counts backend-constructor invocations. -/

namespace Factory

/-- The factory cache and instrumentation: `cache` is the
`map[string]llm.Provider`, `nextId` the next fresh instance identity,
`ctorCalls` the number of backend-constructor invocations so far. -/
structure State where
  cache : List (String × Nat)
  nextId : Nat
  ctorCalls : Nat
deriving DecidableEq, Repr

/-- Go map lookup `f.cache[name]` over the association-list model. -/
def lookupCache : List (String × Nat) → String → Option Nat
  | [], _ => none
  | (k, v) :: rest, name => if k = name then some v else lookupCache rest name

/-- `providers.NewFactory()`. -/
def NewFactory : State :=
  { cache := [], nextId := 0, ctorCalls := 0 }

/-- Environment oracle for the backend constructors
(`claude.NewProvider()` / `gemini.NewProvider(ctx, apiKey)` with the key
read from the environment): the outcome of the constructor dispatched for
`name` at the `k`-th constructor invocation of this factory, `none`
meaning success and `some e` the construction error. -/
def CtorOracle := String → Nat → Option GoError

/-- The names the `switch name` dispatch recognizes. -/
def knownProvider (name : String) : Bool :=
  name = Claude.ProviderClaude || name = Gemini.ProviderGemini

/-- `Factory.GetProvider(ctx, name)`: cached instance, or dispatch on the
name, construct, and cache on success; unknown names and construction
failures leave the state's cache unchanged. -/
def getProvider (o : CtorOracle) (s : State) (name : String) :
    Except GoError Nat × State :=
  match lookupCache s.cache name with
  | some p => (.ok p, s)
  | none =>
    if knownProvider name then
      match o name s.ctorCalls with
      | some e => (.error e, { s with ctorCalls := s.ctorCalls + 1 })
      | none =>
        (.ok s.nextId,
         { cache := (name, s.nextId) :: s.cache,
           nextId := s.nextId + 1,
           ctorCalls := s.ctorCalls + 1 })
    else
      (.error (.errorf ("unknown provider: " ++ name)), s)

/-- Run a sequence of `GetProvider` requests from a state, threading the
state through. -/
def runRequests (o : CtorOracle) (s : State) : List String → State
  | [] => s
  | name :: rest => runRequests o (getProvider o s name).2 rest

end Factory

/-! ## Configuration resolver (`internal/config`)

`viper` is an external collaborator; per the configuration surface it is
a layered string key space. It is modelled as the association list of the
keys that are explicitly set, with `IsSet` = presence and `GetString` =
the stored value, or the empty string for an absent key. -/

namespace Config

/-- The viper configuration state: explicitly-set keys with their string
values. -/
def Viper := List (String × String)

/-- Underlying lookup of an explicitly-set key. -/
def lookupKey : List (String × String) → String → Option String
  | [], _ => none
  | (k, v) :: rest, key => if k = key then some v else lookupKey rest key

/-- `viper.IsSet(key)`. -/
def isSet (cfg : Viper) (key : String) : Bool :=
  (lookupKey cfg key).isSome

/-- `viper.GetString(key)`: the set value, or `""` when absent. -/
def getString (cfg : Viper) (key : String) : String :=
  (lookupKey cfg key).getD ""

/-- `config.ProviderConfig`. -/
structure ProviderConfig where
  Provider : String
  Model : String
deriving DecidableEq, Repr

/-- `config.ResolveProviderConfig(commandName)`: per field, use the
per-command key when it is set, else the global key. -/
def ResolveProviderConfig (cfg : Viper) (commandName : String) : ProviderConfig :=
  let commandProviderKey := "commands." ++ commandName ++ ".provider"
  let provider :=
    if isSet cfg commandProviderKey then getString cfg commandProviderKey
    else getString cfg "provider"
  let commandModelKey := "commands." ++ commandName ++ ".model"
  let model :=
    if isSet cfg commandModelKey then getString cfg commandModelKey
    else getString cfg "model"
  { Provider := provider, Model := model }

/-- `config.ProviderConfig.ApplyFlags(providerFlag, modelFlag)`: a
non-empty flag overwrites the field, an empty flag leaves it alone. -/
def ProviderConfig.ApplyFlags (c : ProviderConfig)
    (providerFlag modelFlag : String) : ProviderConfig :=
  let c1 := if providerFlag ≠ "" then { c with Provider := providerFlag } else c
  if modelFlag ≠ "" then { c1 with Model := modelFlag } else c1

end Config

/-! ## Helper lemmas -/

theorem errorsIs_self (e : GoError) : errorsIs e e = true := by
  cases e <;> simp [errorsIs]

/-- Computation of the whole retry loop for a function failing at every
attempt under a never-cancelled context: three calls, two completed
sleeps, the last error wrapped with the attempt-count message. -/
theorem retryWithBackoff_of_all_errors (err : Nat → GoError) :
    RetryWithBackoff backgroundCtx (fun n => .error (err n)) =
      { result := .error
          (.wrapf ("failed after 3 retries: " ++ (err 2).message) (err 2)),
        calls := 3,
        slept := [1000000000, 2000000000] } := rfl

theorem getProvider_of_cached (o : Factory.CtorOracle) (s : Factory.State)
    (name : String) (p : Nat) (h : Factory.lookupCache s.cache name = some p) :
    Factory.getProvider o s name = (.ok p, s) := by
  unfold Factory.getProvider
  rw [h]

theorem lookup_of_getProvider_ok (o : Factory.CtorOracle) (s : Factory.State)
    (name : String) (p : Nat) (s' : Factory.State)
    (h : Factory.getProvider o s name = (.ok p, s')) :
    Factory.lookupCache s'.cache name = some p := by
  unfold Factory.getProvider at h
  rcases hl : Factory.lookupCache s.cache name with _ | q
  · rw [hl] at h
    by_cases hk : Factory.knownProvider name
    · rw [if_pos hk] at h
      rcases ho : o name s.ctorCalls with _ | e
      · rw [ho] at h
        injection h with h1 h2
        injection h1 with h1
        subst h1; subst h2
        simp [Factory.lookupCache]
      · rw [ho] at h
        injection h with h1 h2
        cases h1
    · rw [if_neg hk] at h
      injection h with h1 h2
      cases h1
  · rw [hl] at h
    injection h with h1 h2
    injection h1 with h1
    subst h1; subst h2
    exact hl

/-- A cache entry survives any later `GetProvider` request: entries are
never removed, and a name that is cached is never re-inserted. -/
theorem cached_preserved (o : Factory.CtorOracle) (s : Factory.State)
    (r name : String) (p : Nat) (h : Factory.lookupCache s.cache name = some p) :
    Factory.lookupCache ((Factory.getProvider o s r).2).cache name = some p := by
  unfold Factory.getProvider
  rcases hl : Factory.lookupCache s.cache r with _ | q
  · by_cases hk : Factory.knownProvider r
    · rw [if_pos hk]
      rcases ho : o r s.ctorCalls with _ | e
      · simp only [Factory.lookupCache]
        have hne : r ≠ name := by
          intro heq; rw [heq, h] at hl; cases hl
        rw [if_neg hne]
        exact h
      · exact h
    · rw [if_neg hk]; exact h
  · exact h

theorem cached_preserved_run (o : Factory.CtorOracle) (name : String) (p : Nat) :
    ∀ (rs : List String) (s : Factory.State),
      Factory.lookupCache s.cache name = some p →
      Factory.lookupCache ((Factory.runRequests o s rs)).cache name = some p := by
  intro rs
  induction rs with
  | nil => intro s h; exact h
  | cons r rest ih =>
    intro s h
    exact ih _ (cached_preserved o s r name p h)

theorem generateViaCLI_calls_le_one (p : Gemini.Provider) (cli : Gemini.CLIOutcome) :
    (Gemini.generateViaCLI p cli).backendCalls ≤ 1 := by
  unfold Gemini.generateViaCLI
  split
  · exact Nat.zero_le 1
  · rcases cli with out | st | e
    · simp only
      split <;> exact Nat.le_refl 1
    · exact Nat.le_refl 1
    · exact Nat.le_refl 1

/-! ## Claim theorems -/

/-- C4: for every function that returns a non-nil error on every
invocation, under a never-cancelled context `RetryWithBackoff` calls the
function exactly 3 times and returns a non-nil error that wraps (in the
unwrap chain) the error of the last call, with the attempt-count
annotation `failed after 3 retries` in its message. -/
theorem retry_always_failing_three_calls_wraps_last
    (fn : Nat → Except GoError String) (err : Nat → GoError)
    (h : ∀ n, fn n = .error (err n)) :
    (RetryWithBackoff backgroundCtx fn).calls = 3 ∧
    (RetryWithBackoff backgroundCtx fn).result =
      .error (.wrapf ("failed after 3 retries: " ++ (err 2).message) (err 2)) ∧
    errorsIs
      (.wrapf ("failed after 3 retries: " ++ (err 2).message) (err 2))
      (err 2) = true := by
  have hfn : fn = fun n => .error (err n) := funext h
  subst hfn
  refine ⟨?_, ?_, ?_⟩
  · rw [retryWithBackoff_of_all_errors]
  · rw [retryWithBackoff_of_all_errors]
  · simp [errorsIs, errorsIs_self]

/-- Witness for C4 at a concrete constant failing function. -/
theorem retry_always_failing_three_calls_wraps_last_witness :
    (RetryWithBackoff backgroundCtx
      (fun _ => .error (.errorf "network error"))).calls = 3 ∧
    (RetryWithBackoff backgroundCtx
      (fun _ => .error (.errorf "network error"))).result =
      .error (.wrapf ("failed after 3 retries: " ++ "network error")
        (.errorf "network error")) ∧
    errorsIs
      (.wrapf ("failed after 3 retries: " ++ "network error")
        (.errorf "network error"))
      (.errorf "network error") = true :=
  retry_always_failing_three_calls_wraps_last _
    (fun _ => .errorf "network error") (fun _ => rfl)

/-- C5: `RetryWithBackoff` honors cancellation at both suspension points:
a context already cancelled before the first check (point 0) gives the
context's error with zero calls and no sleeping; a context that fires
during the first inter-attempt delay (point 1) or the second (point 3)
gives the context's error immediately, with no completed delay after the
cancellation and no further attempts. -/
theorem retry_context_cancellation (ctx : Ctx) (fn : Nat → Except GoError String) :
    (ctx.errAt 0 = true →
      RetryWithBackoff ctx fn =
        { result := .error ctx.errValue, calls := 0, slept := [] }) ∧
    (∀ e, ctx.errAt 0 = false → ctx.errAt 1 = true → fn 0 = .error e →
      RetryWithBackoff ctx fn =
        { result := .error ctx.errValue, calls := 1, slept := [] }) ∧
    (∀ e0 e1, ctx.errAt 0 = false → ctx.errAt 1 = false → ctx.errAt 2 = false →
      ctx.errAt 3 = true → fn 0 = .error e0 → fn 1 = .error e1 →
      RetryWithBackoff ctx fn =
        { result := .error ctx.errValue, calls := 2, slept := [initialDelay] }) := by
  refine ⟨?_, ?_, ?_⟩
  · intro h0
    simp [RetryWithBackoff, retryLoop, h0]
  · intro e h0 h1 hf0
    simp [RetryWithBackoff, retryLoop, h0, h1, hf0, maxRetries]
  · intro e0 e1 h0 h1 h2 h3 hf0 hf1
    simp [RetryWithBackoff, retryLoop, h0, h1, h2, h3, hf0, hf1, maxRetries,
      initialDelay, maxDelay]

/-- Witness for C5 at concrete contexts cancelled before the first
attempt, during the first delay, and during the second delay. -/
theorem retry_context_cancellation_witness :
    RetryWithBackoff { cancelAt := some 0, errValue := .ctxCanceled }
      (fun _ => .error (.errorf "x")) =
      { result := .error .ctxCanceled, calls := 0, slept := [] } ∧
    RetryWithBackoff { cancelAt := some 1, errValue := .ctxCanceled }
      (fun _ => .error (.errorf "x")) =
      { result := .error .ctxCanceled, calls := 1, slept := [] } ∧
    RetryWithBackoff { cancelAt := some 3, errValue := .ctxCanceled }
      (fun _ => .error (.errorf "x")) =
      { result := .error .ctxCanceled, calls := 2, slept := [initialDelay] } :=
  ⟨(retry_context_cancellation _ _).1 (by decide),
   (retry_context_cancellation _ _).2.1 _ (by decide) (by decide) rfl,
   (retry_context_cancellation _ _).2.2 _ _ (by decide) (by decide) (by decide)
     (by decide) rfl rfl⟩

/-- C9: `IsInteractive()` returns exactly the boolean produced by the
injected terminal-check function applied to the recorded stdin
descriptor; with no check function supplied it returns false. -/
theorem isInteractive_delegates_fail_closed (s : IOStreams) :
    (∀ check, s.isTerminalFunc = some check →
      s.IsInteractive = check s.stdinFd) ∧
    (s.isTerminalFunc = none → s.IsInteractive = false) := by
  constructor
  · intro check h
    simp [IOStreams.IsInteractive, h]
  · intro h
    simp [IOStreams.IsInteractive, h]

/-- Witness for C9 at the test stream constructors and a nil check
function. -/
theorem isInteractive_delegates_fail_closed_witness :
    TestIOStreams.IsInteractive = true ∧
    TestIOStreamsNonInteractive.IsInteractive = false ∧
    IOStreams.IsInteractive { isTerminalFunc := none, stdinFd := 0 } = false :=
  ⟨(isInteractive_delegates_fail_closed TestIOStreams).1 _ rfl,
   (isInteractive_delegates_fail_closed TestIOStreamsNonInteractive).1 _ rfl,
   (isInteractive_delegates_fail_closed _).2 rfl⟩

/-- C7: `ApplyFlags` overwrites a field exactly when the corresponding
flag is non-empty, leaving the other field untouched, and leaves the
whole config unchanged when both flags are empty. -/
theorem applyFlags_empty_flag_preserves (c : Config.ProviderConfig) :
    (∀ m, m ≠ "" →
      Config.ProviderConfig.ApplyFlags c "" m = { c with Model := m }) ∧
    (∀ p, p ≠ "" →
      Config.ProviderConfig.ApplyFlags c p "" = { c with Provider := p }) ∧
    Config.ProviderConfig.ApplyFlags c "" "" = c := by
  refine ⟨?_, ?_, ?_⟩
  · intro m hm
    simp [Config.ProviderConfig.ApplyFlags, hm]
  · intro p hp
    simp [Config.ProviderConfig.ApplyFlags, hp]
  · simp [Config.ProviderConfig.ApplyFlags]

/-- Witness for C7 at the spec's example `{claude, sonnet}`. -/
theorem applyFlags_empty_flag_preserves_witness :
    Config.ProviderConfig.ApplyFlags ⟨"claude", "sonnet"⟩ "" "opus" =
      ⟨"claude", "opus"⟩ ∧
    Config.ProviderConfig.ApplyFlags ⟨"claude", "sonnet"⟩ "gemini" "" =
      ⟨"gemini", "sonnet"⟩ ∧
    Config.ProviderConfig.ApplyFlags ⟨"claude", "sonnet"⟩ "" "" =
      ⟨"claude", "sonnet"⟩ :=
  ⟨(applyFlags_empty_flag_preserves _).1 "opus" (by decide),
   (applyFlags_empty_flag_preserves _).2.1 "gemini" (by decide),
   (applyFlags_empty_flag_preserves _).2.2⟩

/-- C6: `ResolveProviderConfig` resolves `Provider` and `Model`
independently: each field takes the per-command key when that key is set
and falls back to the global key when it is not, regardless of the state
of the other field's keys. -/
theorem resolveProviderConfig_per_field_fallback (cfg : Config.Viper) (name : String) :
    (Config.isSet cfg ("commands." ++ name ++ ".provider") = true →
      (Config.ResolveProviderConfig cfg name).Provider =
        Config.getString cfg ("commands." ++ name ++ ".provider")) ∧
    (Config.isSet cfg ("commands." ++ name ++ ".provider") = false →
      (Config.ResolveProviderConfig cfg name).Provider =
        Config.getString cfg "provider") ∧
    (Config.isSet cfg ("commands." ++ name ++ ".model") = true →
      (Config.ResolveProviderConfig cfg name).Model =
        Config.getString cfg ("commands." ++ name ++ ".model")) ∧
    (Config.isSet cfg ("commands." ++ name ++ ".model") = false →
      (Config.ResolveProviderConfig cfg name).Model =
        Config.getString cfg "model") := by
  refine ⟨?_, ?_, ?_, ?_⟩ <;> intro h <;>
    simp [Config.ResolveProviderConfig, h]

/-- The spec's first resolution example: a full per-command override. -/
def cfgAskExample : Config.Viper :=
  [("provider", "claude"), ("model", "sonnet"),
   ("commands.ask.provider", "gemini"), ("commands.ask.model", "gemini-flash")]

/-- The spec's second resolution example: a per-command provider with no
per-command model. -/
def cfgDoExample : Config.Viper :=
  [("model", "sonnet"), ("commands.do.provider", "gemini")]

/-- Witness for C6 at the spec's two examples, exhibiting the independent
per-field fallback. -/
theorem resolveProviderConfig_per_field_fallback_witness :
    (Config.ResolveProviderConfig cfgAskExample "ask").Provider = "gemini" ∧
    (Config.ResolveProviderConfig cfgAskExample "ask").Model = "gemini-flash" ∧
    (Config.ResolveProviderConfig cfgDoExample "do").Provider = "gemini" ∧
    (Config.ResolveProviderConfig cfgDoExample "do").Model = "sonnet" :=
  ⟨(resolveProviderConfig_per_field_fallback cfgAskExample "ask").1 (by decide),
   (resolveProviderConfig_per_field_fallback cfgAskExample "ask").2.2.1 (by decide),
   (resolveProviderConfig_per_field_fallback cfgDoExample "do").1 (by decide),
   (resolveProviderConfig_per_field_fallback cfgDoExample "do").2.2.2 (by decide)⟩

/-- C10: the fallback to the global key triggers on absence of the
per-command key, not on its emptiness: a per-command key explicitly set
to the empty string resolves the field to the empty string, shadowing any
global value. -/
theorem resolve_empty_per_command_shadows_global (cfg : Config.Viper) (name : String) :
    (Config.lookupKey cfg ("commands." ++ name ++ ".provider") = some "" →
      (Config.ResolveProviderConfig cfg name).Provider = "") ∧
    (Config.lookupKey cfg ("commands." ++ name ++ ".model") = some "" →
      (Config.ResolveProviderConfig cfg name).Model = "") := by
  constructor <;> intro h <;>
    simp [Config.ResolveProviderConfig, Config.isSet, Config.getString, h]

/-- Configuration with non-empty globals shadowed by empty per-command
keys. -/
def cfgShadowExample : Config.Viper :=
  [("provider", "claude"), ("model", "sonnet"),
   ("commands.ask.provider", ""), ("commands.ask.model", "")]

/-- Witness for C10: the globals are non-empty, yet both fields resolve
empty. -/
theorem resolve_empty_per_command_shadows_global_witness :
    Config.getString cfgShadowExample "provider" = "claude" ∧
    Config.getString cfgShadowExample "model" = "sonnet" ∧
    (Config.ResolveProviderConfig cfgShadowExample "ask").Provider = "" ∧
    (Config.ResolveProviderConfig cfgShadowExample "ask").Model = "" :=
  ⟨by decide, by decide,
   (resolve_empty_per_command_shadows_global cfgShadowExample "ask").1 (by decide),
   (resolve_empty_per_command_shadows_global cfgShadowExample "ask").2 (by decide)⟩

/-- C1: once `GetProvider` succeeds for a name, every later `GetProvider`
call for that name — after any interleaving of other requests — returns
the identical cached instance, and leaves the factory state (cache,
fresh-identity counter and backend-constructor invocation counter)
completely unchanged, so the backend constructor is never invoked
again. -/
theorem factory_single_instance_per_name (o : Factory.CtorOracle)
    (s : Factory.State) (name : String) (p : Nat) (s' : Factory.State)
    (h : Factory.getProvider o s name = (.ok p, s')) (rs : List String) :
    Factory.getProvider o (Factory.runRequests o s' rs) name =
      (.ok p, Factory.runRequests o s' rs) := by
  have h1 := lookup_of_getProvider_ok o s name p s' h
  have h2 := cached_preserved_run o name p rs s' h1
  exact getProvider_of_cached o _ name p h2

/-- A constructor oracle that always succeeds. -/
def ctorAlwaysOk : Factory.CtorOracle := fun _ _ => none

/-- Witness for C1: after a first successful construction of `claude`,
two later requests (one of them for another provider and one for an
unknown name) leave the `claude` entry returning instance `0` with the
state untouched. -/
theorem factory_single_instance_per_name_witness :
    Factory.getProvider ctorAlwaysOk
        (Factory.runRequests ctorAlwaysOk
          { cache := [("claude", 0)], nextId := 1, ctorCalls := 1 }
          ["gemini", "claude", "nonsense"]) "claude" =
      (.ok 0,
       Factory.runRequests ctorAlwaysOk
         { cache := [("claude", 0)], nextId := 1, ctorCalls := 1 }
         ["gemini", "claude", "nonsense"]) :=
  factory_single_instance_per_name ctorAlwaysOk Factory.NewFactory "claude" 0
    { cache := [("claude", 0)], nextId := 1, ctorCalls := 1 } rfl
    ["gemini", "claude", "nonsense"]

/-- C2: `GetProvider` leaves the cache unchanged on every error path.
An unknown name fails immediately with the descriptive
`unknown provider` error, which is not a `ProviderError`, and changes
nothing; a known uncached name whose constructor fails returns the
construction error uncached (only the invocation counter moves), and a
subsequent call re-attempts construction and succeeds if the constructor
now succeeds. -/
theorem factory_error_paths_leave_cache_unchanged (o : Factory.CtorOracle)
    (s : Factory.State) (name : String) :
    (Factory.knownProvider name = false →
      Factory.lookupCache s.cache name = none →
      Factory.getProvider o s name =
        (.error (.errorf ("unknown provider: " ++ name)), s) ∧
      (GoError.errorf ("unknown provider: " ++ name)).isProviderError = false) ∧
    (∀ e, Factory.lookupCache s.cache name = none →
      Factory.knownProvider name = true → o name s.ctorCalls = some e →
      Factory.getProvider o s name =
        (.error e, { s with ctorCalls := s.ctorCalls + 1 }) ∧
      ({ s with ctorCalls := s.ctorCalls + 1 } : Factory.State).cache = s.cache ∧
      (o name (s.ctorCalls + 1) = none →
        Factory.getProvider o { s with ctorCalls := s.ctorCalls + 1 } name =
          (.ok s.nextId,
           { cache := (name, s.nextId) :: s.cache, nextId := s.nextId + 1,
             ctorCalls := s.ctorCalls + 1 + 1 }))) := by
  constructor
  · intro hk hl
    refine ⟨?_, rfl⟩
    unfold Factory.getProvider
    rw [hl, if_neg (by simp [hk])]
  · intro e hl hk ho
    refine ⟨?_, rfl, ?_⟩
    · unfold Factory.getProvider
      rw [hl, if_pos hk, ho]
    · intro ho2
      unfold Factory.getProvider
      rw [show ({ s with ctorCalls := s.ctorCalls + 1 } : Factory.State).cache
            = s.cache from rfl, hl, if_pos hk]
      rw [show ({ s with ctorCalls := s.ctorCalls + 1 } : Factory.State).ctorCalls
            = s.ctorCalls + 1 from rfl, ho2]

/-- A constructor oracle that fails on the first invocation and succeeds
afterwards (the backend becomes available between the calls). -/
def ctorFailsOnce : Factory.CtorOracle :=
  fun _ k => if k = 0 then some (.errorf "claude executable not found") else none

/-- Witness for C2: the unknown-name error on a fresh factory, an
uncached construction failure for `claude`, and the successful retry once
the constructor succeeds. -/
theorem factory_error_paths_leave_cache_unchanged_witness :
    Factory.getProvider ctorFailsOnce Factory.NewFactory "unknown" =
      (.error (.errorf "unknown provider: unknown"), Factory.NewFactory) ∧
    Factory.getProvider ctorFailsOnce Factory.NewFactory "claude" =
      (.error (.errorf "claude executable not found"),
       { cache := [], nextId := 0, ctorCalls := 1 }) ∧
    Factory.getProvider ctorFailsOnce
        { cache := [], nextId := 0, ctorCalls := 1 } "claude" =
      (.ok 0, { cache := [("claude", 0)], nextId := 1, ctorCalls := 2 }) :=
  ⟨((factory_error_paths_leave_cache_unchanged ctorFailsOnce Factory.NewFactory
      "unknown").1 (by decide) rfl).1,
   ((factory_error_paths_leave_cache_unchanged ctorFailsOnce Factory.NewFactory
      "claude").2 _ rfl (by decide) rfl).1,
   ((factory_error_paths_leave_cache_unchanged ctorFailsOnce Factory.NewFactory
      "claude").2 _ rfl (by decide) rfl).2.2 rfl⟩

/-- C3 counterexample: the Claude provider's `Generate` with a backend
invocation that fails performs exactly one CLI invocation, not the 3
attempts the claim's retry wrapping would require. -/
theorem claude_generate_not_retried_counterexample :
    (Claude.Provider.Generate { cliPath := "/usr/local/bin/claude" } []
        (fun _ => ("", some (.errorf "exit status 1")))).backendCalls = 1 ∧
    ¬ ((Claude.Provider.Generate { cliPath := "/usr/local/bin/claude" } []
        (fun _ => ("", some (.errorf "exit status 1")))).backendCalls = 3) := by
  constructor
  · decide
  · decide

/-- C3 (amended): only the Gemini provider's API-client path wraps
`Generate` in `RetryWithBackoff` — there it performs up to 3 attempts
(exactly 3 with a never-cancelled context and an always-failing API
call). The Claude provider's `Generate` invokes the claude CLI exactly
once with no retry, and the Gemini CLI fallback path likewise performs at
most one CLI invocation. -/
theorem generate_retry_wrapping_amended :
    (∀ (p : Claude.Provider) (opts : List LLMOption)
       (co : String → String × Option GoError),
      (Claude.Provider.Generate p opts co).backendCalls = 1) ∧
    (∀ (p : Gemini.Provider) (ctx : Ctx) (opts : List LLMOption)
       (api : Nat → Except GoError Gemini.APIResponse) (cli : Gemini.CLIOutcome),
      p.hasClient = true →
      Gemini.Provider.Generate p ctx opts api cli =
        (let tr := RetryWithBackoff ctx (Gemini.apiAttempt api
            (if (BuildOptions opts).Model = "" then Gemini.DefaultModel
             else (BuildOptions opts).Model));
         { result := tr.result, backendCalls := tr.calls })) ∧
    (∀ (p : Gemini.Provider) (ctx : Ctx) (opts : List LLMOption)
       (api : Nat → Except GoError Gemini.APIResponse) (cli : Gemini.CLIOutcome),
      p.hasClient = false →
      (Gemini.Provider.Generate p ctx opts api cli).backendCalls ≤ 1) ∧
    (∀ (p : Gemini.Provider) (opts : List LLMOption)
       (api : Nat → Except GoError Gemini.APIResponse) (cli : Gemini.CLIOutcome)
       (err : Nat → GoError),
      p.hasClient = true → (∀ n, api n = .error (err n)) →
      (Gemini.Provider.Generate p backgroundCtx opts api cli).backendCalls = 3) := by
  refine ⟨?_, ?_, ?_, ?_⟩
  · intro p opts co
    simp only [Claude.Provider.Generate]
    rcases h : co (if (BuildOptions opts).Model = "" then Claude.DefaultModel
      else (BuildOptions opts).Model) with ⟨output, _ | err⟩
    · split <;> first | rfl | (split <;> rfl)
    · rfl
  · intro p ctx opts api cli h
    simp [Gemini.Provider.Generate, h]
  · intro p ctx opts api cli h
    simp only [Gemini.Provider.Generate, h, eq_self_iff_true, if_true]
    exact generateViaCLI_calls_le_one p cli
  · intro p opts api cli err hc hapi
    have hfn : Gemini.apiAttempt api
        (if (BuildOptions opts).Model = "" then Gemini.DefaultModel
         else (BuildOptions opts).Model) =
        fun n => .error (Gemini.wrapError (err n)
          (if (BuildOptions opts).Model = "" then Gemini.DefaultModel
           else (BuildOptions opts).Model)) := by
      funext n
      simp [Gemini.apiAttempt, hapi n]
    simp only [Gemini.Provider.Generate, hc]
    rw [hfn, retryWithBackoff_of_all_errors]
    simp

/-- Witness for C3 (amended): concrete runs of all four parts — a failing
Claude CLI call, the Gemini API path as a retry run, the Gemini CLI
fallback, and a Gemini API path failing on every attempt. -/
theorem generate_retry_wrapping_amended_witness :
    (Claude.Provider.Generate { cliPath := "/usr/local/bin/claude" } []
      (fun _ => ("hello", none))).backendCalls = 1 ∧
    Gemini.Provider.Generate { hasClient := true, apiKey := "k", cliPath := "" }
        backgroundCtx [] (fun _ => .error (.errorf "boom")) (.ok "out") =
      (let tr := RetryWithBackoff backgroundCtx (Gemini.apiAttempt
          (fun _ => .error (.errorf "boom"))
          (if (BuildOptions []).Model = "" then Gemini.DefaultModel
           else (BuildOptions []).Model));
       { result := tr.result, backendCalls := tr.calls }) ∧
    (Gemini.Provider.Generate { hasClient := false, apiKey := "", cliPath := "/g" }
        backgroundCtx [] (fun _ => .error (.errorf "boom"))
        (.ok "out")).backendCalls ≤ 1 ∧
    (Gemini.Provider.Generate { hasClient := true, apiKey := "k", cliPath := "" }
        backgroundCtx [] (fun _ => .error (.errorf "boom"))
        (.ok "out")).backendCalls = 3 :=
  ⟨generate_retry_wrapping_amended.1 _ [] _,
   generate_retry_wrapping_amended.2.1 _ backgroundCtx [] _ _ rfl,
   generate_retry_wrapping_amended.2.2.1 _ backgroundCtx [] _ _ rfl,
   generate_retry_wrapping_amended.2.2.2 _ [] _ _ (fun _ => .errorf "boom")
     rfl (fun _ => rfl)⟩

/-- C8 counterexample: the Gemini constructor with an empty API key but
the gemini CLI present on the path returns a CLI-backed provider and no
error, contradicting the claim that an empty API key always yields an
authentication-failed `ProviderError` with a nil provider. -/
theorem gemini_ctor_empty_key_cli_counterexample :
    Gemini.NewProvider "" (some "/usr/local/bin/gemini") none =
      .ok { hasClient := false, apiKey := "", cliPath := "/usr/local/bin/gemini" } :=
  rfl

/-- C8 (amended): provider construction never yields a silent nil
provider (the result is exclusively a provider or an error). The Claude
constructor with no claude executable returns a not-available
`ProviderError`; the Gemini constructor with an empty API key and no
gemini CLI on the path returns an authentication-failed `ProviderError`;
with an empty API key but the gemini CLI installed it succeeds with a
CLI-backed provider. -/
theorem provider_ctor_failure_amended :
    (∀ lookErr : GoError,
      Claude.NewProvider (.error lookErr) =
        .error (ErrProviderNotAvailable Claude.ProviderClaude lookErr) ∧
      (ErrProviderNotAvailable Claude.ProviderClaude lookErr).isProviderError = true) ∧
    (∀ clientInit : Option GoError,
      Gemini.NewProvider "" none clientInit =
        .error (ErrAuthenticationFailed Gemini.ProviderGemini
          (.errorf ("API key is required (set " ++ Gemini.APIKeyEnvVar ++
            " environment variable) or Gemini CLI must be installed"))) ∧
      (ErrAuthenticationFailed Gemini.ProviderGemini
          (.errorf ("API key is required (set " ++ Gemini.APIKeyEnvVar ++
            " environment variable) or Gemini CLI must be installed"))).isProviderError
        = true) ∧
    (∀ cliPath : String, cliPath ≠ "" →
      Gemini.NewProvider "" (some cliPath) none =
        .ok { hasClient := false, apiKey := "", cliPath := cliPath }) := by
  refine ⟨?_, ?_, ?_⟩
  · intro lookErr
    exact ⟨rfl, rfl⟩
  · intro clientInit
    exact ⟨rfl, rfl⟩
  · intro cliPath h
    simp [Gemini.NewProvider, h]

/-- Witness for C8 (amended) at concrete environments: missing claude
executable, missing key and CLI, and CLI-only gemini. -/
theorem provider_ctor_failure_amended_witness :
    Claude.NewProvider (.error (.errorf "executable file not found in PATH")) =
      .error (ErrProviderNotAvailable Claude.ProviderClaude
        (.errorf "executable file not found in PATH")) ∧
    Gemini.NewProvider "" none none =
      .error (ErrAuthenticationFailed Gemini.ProviderGemini
        (.errorf ("API key is required (set " ++ Gemini.APIKeyEnvVar ++
          " environment variable) or Gemini CLI must be installed"))) ∧
    Gemini.NewProvider "" (some "/opt/gemini") none =
      .ok { hasClient := false, apiKey := "", cliPath := "/opt/gemini" } :=
  ⟨(provider_ctor_failure_amended.1 _).1,
   (provider_ctor_failure_amended.2.1 _).1,
   provider_ctor_failure_amended.2.2 _ (by decide)⟩

end Smix
